import Mathlib

/-!
Shallow embedding of the ts_atspec core (ATSpectrograph CSC) in Lean 4.

The embedded code comes from three Python modules:
- `python/lsst/ts/atspectrograph/model.py` (protocol client `Model`),
- `python/lsst/ts/atspectrograph/atspec_csc.py` (orchestration `CSC.move_element`
  and `CSC.home_element`),
- `python/lsst/ts/atspectrograph/mock_controller.py` (simulated device
  `MockSpectrographController`).

Conventions used throughout:
- Python `str` values stay `String`; byte strings on this ASCII protocol are
  also modelled as `String`.
- Wheel positions are `Int`, the linear-stage position is `Rat` (exact
  rationals in place of IEEE floats; no claim settled here depends on float
  rounding).
- A raising Python call becomes a value of `PyResult`, with one constructor
  per exception class that the embedded code can raise or catch.
- `asyncio` suspension points are modelled by explicit environments (what each
  read returns, whether each write succeeds) and, for the simulated motion
  tasks, by traces listing the device state at each suspension point.
-/

namespace ATSpec

/-- Exception classes raised or caught by the embedded code. -/
inductive PyErr where
  | assertionError
  | runtimeError (msg : String)
  | timeoutError
  | ioError
  deriving DecidableEq, Repr

/-- Result of a Python call: a value, or a raised exception. -/
inductive PyResult (α : Type) where
  | ok (a : α)
  | exn (e : PyErr)
  deriving DecidableEq, Repr

/-- Whether a call left through an exception. -/
def PyResult.isExn {α : Type} : PyResult α → Bool
  | .ok _ => false
  | .exn _ => true

/-- Status codes of `lsst.ts.idl.enums.ATSpectrograph.Status`
(external dependency of model.py; only the four names used there). -/
inductive ATStatus where
  | HOMING
  | MOVING
  | STATIONARY
  | NOTINPOSITION
  deriving DecidableEq, Repr

/-- Error codes of `lsst.ts.idl.enums.ATSpectrograph.Error`
(external dependency of model.py; only the four names used there). -/
inductive ATError where
  | NONE
  | BUSY
  | NOTINITIALIZED
  | MOVETIMEOUT
  deriving DecidableEq, Repr

/-- The decoded position field of a status reply: an integer if Python
`int()` accepts it, else a float if Python `float()` accepts it, else the
`ATSpectrograph.FilterPosition.INBETWEEN` sentinel
(model.py, `FilterWheelStatus.parse_status`). -/
inductive ParsedPos where
  | intVal (n : Int)
  | floatVal (q : Rat)
  | INBETWEEN
  deriving DecidableEq, Repr

/-- Python whitespace characters recognised by `str.strip` / `str.rstrip`. -/
def pyIsSpace (c : Char) : Bool :=
  c = ' ' ∨ c = '\t' ∨ c = '\n' ∨ c = '\r' ∨ c = '\x0b' ∨ c = '\x0c'

/-- Python `str.rstrip()`: drop trailing whitespace. -/
def pyRstrip (s : String) : String :=
  ⟨(s.data.reverse.dropWhile pyIsSpace).reverse⟩

/-- Python `str.strip()`: drop leading and trailing whitespace. -/
def pyStrip (s : String) : String :=
  ⟨((s.data.dropWhile pyIsSpace).reverse.dropWhile pyIsSpace).reverse⟩

/-- Decimal value of a digit list (most significant first). -/
def digitsToNat (l : List Char) : Nat :=
  l.foldl (fun a c => a * 10 + (c.toNat - '0'.toNat)) 0

/-- A nonempty all-digit token, as required after the optional sign by
Python `int()`. -/
def decDigits (l : List Char) : Option Nat :=
  if l ≠ [] ∧ l.all Char.isDigit then some (digitsToNat l) else none

/-- Python `int(token)` on a token already free of surrounding whitespace:
an optional sign followed by one or more decimal digits. (Underscore digit
grouping, accepted by CPython, is not modelled; no token of this protocol
uses it.) Returns `none` where Python raises `ValueError`. -/
def pyInt (s : String) : Option Int :=
  match s.data with
  | '+' :: rest => (decDigits rest).map Int.ofNat
  | '-' :: rest => (decDigits rest).map (fun n => -(Int.ofNat n : Int))
  | l => (decDigits l).map Int.ofNat

/-- Python `str.split(sep)` with a one-character separator: split at every
occurrence of `sep`, keeping empty fields. -/
def pySplit1 (sep : Char) : List Char → List (List Char)
  | [] => [[]]
  | c :: rest =>
      match pySplit1 sep rest with
      | [] => [[]]
      | h :: t => if c = sep then [] :: h :: t else (c :: h) :: t

/-- Unsigned mantissa of Python `float()`: `digits`, `digits.digits?`,
or `.digits`, valued as an exact rational. -/
def floatMantissa (l : List Char) : Option Rat :=
  match pySplit1 '.' l with
  | [ip] =>
      (decDigits ip).map (fun n => (n : Rat))
  | [ip, fp] =>
      if (ip ≠ [] ∨ fp ≠ []) ∧ ip.all Char.isDigit ∧ fp.all Char.isDigit then
        some ((digitsToNat ip : Rat) + (digitsToNat fp : Rat) / ((10 : Rat) ^ fp.length))
      else none
  | _ => none

/-- Signed decimal exponent of Python `float()`. -/
def floatExponent (l : List Char) : Option Int :=
  match l with
  | '+' :: rest => (decDigits rest).map Int.ofNat
  | '-' :: rest => (decDigits rest).map (fun n => -(Int.ofNat n : Int))
  | _ => (decDigits l).map Int.ofNat

/-- Scale a rational by a power of ten. -/
def scaleByPow10 (q : Rat) (e : Int) : Rat :=
  match e with
  | .ofNat n => q * (10 : Rat) ^ n
  | .negSucc n => q / (10 : Rat) ^ (n + 1)

/-- Python `float(token)` on a token already free of surrounding whitespace,
restricted to the finite decimal grammar
`[sign] (digits [. digits?] | . digits) [(e|E) [sign] digits]`.
(IEEE special spellings `inf`/`infinity`/`nan`, accepted by Python, are
outside this model; no reply of this protocol produces them.)
Returns `none` where Python raises `ValueError`. -/
def pyFloat (s : String) : Option Rat :=
  let signed : List Char → Option Rat → Option Rat := fun l k =>
    match l with
    | '+' :: _ => k
    | '-' :: _ => k.map Neg.neg
    | _ => k
  let body : List Char :=
    match s.data with
    | '+' :: rest => rest
    | '-' :: rest => rest
    | l => l
  let low := body.map Char.toLower
  match pySplit1 'e' low with
  | [mant] => signed s.data (floatMantissa mant)
  | [mant, ex] =>
      signed s.data (do
        let m ← floatMantissa mant
        let e ← floatExponent ex
        pure (scaleByPow10 m e))
  | _ => none

/-- The speculative conversion of the position field in
`FilterWheelStatus.parse_status` (model.py lines 77-83): try `int`, then
`float`, and fall back to the `INBETWEEN` sentinel instead of raising. -/
def parsePosField (s : String) : ParsedPos :=
  match pyInt s with
  | some n => .intVal n
  | none =>
      match pyFloat s with
      | some q => .floatVal q
      | none => .INBETWEEN

/-- `WheelStatus.status` lookup (model.py lines 41-46); `none` models the
`KeyError` raised on an unknown state letter. -/
def statusMap (s : String) : Option ATStatus :=
  if s = "I" then some .HOMING
  else if s = "M" then some .MOVING
  else if s = "S" then some .STATIONARY
  else if s = "X" then some .NOTINPOSITION
  else none

/-- `WheelStatus.error` lookup (model.py lines 48-53); `none` models the
`KeyError` raised on an unknown error letter. -/
def errorMap (s : String) : Option ATError :=
  if s = "N" then some .NONE
  else if s = "B" then some .BUSY
  else if s = "I" then some .NOTINITIALIZED
  else if s = "T" then some .MOVETIMEOUT
  else none

/-- `status.split(" ")` of model.py line 76, as a list of strings. -/
def pySplitSpace (s : String) : List String :=
  (pySplit1 ' ' s.data).map (fun l => ⟨l⟩)

/-- `FilterWheelStatus.parse_status` (model.py lines 59-85): split on single
spaces, speculatively convert field 2, and map fields 1 and 3 through the
status and error tables. `none` models the uncaught `IndexError` (too few
fields) and `KeyError` (unknown letters) exits. -/
def FilterWheelStatus_parse (status : String) :
    Option (ATStatus × ParsedPos × ATError) :=
  let values := pySplitSpace status
  match values.get? 2 with
  | none => none
  | some posField =>
      match values.get? 1 with
      | none => none
      | some stLetter =>
          match statusMap stLetter with
          | none => none
          | some st =>
              match values.get? 3 with
              | none => none
              | some erLetter =>
                  match errorMap erLetter with
                  | none => none
                  | some er => some (st, parsePosField posField, er)

/-- `GratingWheelStatus.parse_status`: the class body is `pass`, so parsing
is inherited unchanged from `FilterWheelStatus` (model.py lines 88-91). -/
def GratingWheelStatus_parse : String → Option (ATStatus × ParsedPos × ATError) :=
  FilterWheelStatus_parse

/-- `GratingStageStatus.parse_status`: the class body is `pass`, so parsing
is inherited unchanged from `FilterWheelStatus` (model.py lines 94-97). -/
def GratingStageStatus_parse : String → Option (ATStatus × ParsedPos × ATError) :=
  FilterWheelStatus_parse

/-- `Model.check_return` (model.py lines 612-625): return the reply with
trailing whitespace stripped. Note that it inspects nothing and never
raises. -/
def check_return (value : String) : String :=
  pyRstrip value

/-! ## The Model connection layer (model.py) -/

/-- The connection fields of `Model`: `_reader` and `_writer`, each `None`
or an open stream (streams abstracted to handle numbers). -/
structure ModelConn where
  reader : Option Nat
  writer : Option Nat
  deriving DecidableEq, Repr

/-- `Model.connected` (model.py lines 590-592):
`None not in (self._reader, self._writer)`. -/
def Model.connected (m : ModelConn) : Bool :=
  m.reader.isSome && m.writer.isSome

/-- `Model.writer` property (model.py lines 603-606): asserts that `_writer`
is a `StreamWriter`; with `_writer = None` the `assert isinstance` fails and
`AssertionError` is raised. -/
def Model.writer_prop (m : ModelConn) : PyResult Nat :=
  match m.writer with
  | some w => .ok w
  | none => .exn .assertionError

/-- `Model.disconnect` (model.py lines 516-526). The first statement,
`writer = self.writer`, goes through the asserting `writer` property; only
then are `_reader`/`_writer` reset and the stream shut down. `drainOk`
says whether `write_eof` and the two-second `wait_for(writer.drain())`
succeed (a failure there propagates after the `finally: writer.close()`).
Returns the call's outcome and the post-call connection fields. -/
def Model.disconnect (drainOk : Bool) (m : ModelConn) : PyResult Unit × ModelConn :=
  match Model.writer_prop m with
  | .exn e => (.exn e, m)
  | .ok _ =>
      let m' : ModelConn := { reader := none, writer := none }
      if drainOk then (.ok (), m') else (.exn .timeoutError, m')

/-- What a single stream read yields in a given run: bytes, a
`wait_for` timeout, or a connection error. -/
inductive ReadRes where
  | bytes (s : String)
  | timeout
  | ioFail
  deriving DecidableEq, Repr

/-- Python `s.startswith(p)` as a prefix test on the character lists. -/
def pyStartsWith (p s : String) : Bool :=
  p.data.isPrefixOf s.data

/-- Python `needle in haystack` on strings, as a boolean contiguous
sublist test on the character lists. -/
def listIsInfix (p : List Char) : List Char → Bool
  | [] => p.isEmpty
  | c :: t => p.isPrefixOf (c :: t) || listIsInfix p t

/-- Environment of one `Model.connect` run: whether `open_connection`
completes within `connection_timeout`, and what the two banner-line reads
return. -/
structure ConnectEnv where
  tcpOk : Bool
  banner1 : ReadRes
  banner2 : ReadRes
  deriving DecidableEq, Repr

/-- `Model.connect` (model.py lines 491-514). Raises if already connected;
on handshake timeout `reader`/`writer` are never assigned; after assignment
the two banner lines are read, and the second must contain
`"Spectrograph"`. No branch of the source closes the socket or resets the
fields on failure. Returns the outcome and the post-call connection
fields. -/
def Model.connect (env : ConnectEnv) (m : ModelConn) : PyResult Unit × ModelConn :=
  if Model.connected m then (.exn (.runtimeError "Already connected"), m)
  else if !env.tcpOk then (.exn .timeoutError, m)
  else
    let m1 : ModelConn := { reader := some 0, writer := some 0 }
    match env.banner1 with
    | .timeout => (.exn .timeoutError, m1)
    | .ioFail => (.exn .ioError, m1)
    | .bytes _ =>
        match env.banner2 with
        | .timeout => (.exn .timeoutError, m1)
        | .ioFail => (.exn .ioError, m1)
        | .bytes l2 =>
            if listIsInfix "Spectrograph".data (pyRstrip l2).data then (.ok (), m1)
            else (.exn (.runtimeError "No welcome message from controller."), m1)

/-- Environment of one `Model.run_command` exchange: the ready-prompt read,
whether `write`/`drain` of the command line succeeds, the reply read, and
the `drain` outcome of any implicit `disconnect`. -/
structure RunEnv where
  prompt : ReadRes
  writeOk : Bool
  reply : ReadRes
  drainOk : Bool
  deriving DecidableEq, Repr

/-- The `except` handler around the ready-prompt read and the query-reply
read in `run_command`: `await self.disconnect()` then `raise e`. If
`disconnect` itself raises, that new exception replaces `e` (Python leaves
the handler through it before reaching `raise e`). -/
def Model.disconnectThenRaise (drainOk : Bool) (m : ModelConn) (e : PyErr)
    (writes : List String) : PyResult String × ModelConn × List String :=
  match Model.disconnect drainOk m with
  | (.ok _, m') => (.exn e, m', writes)
  | (.exn e2, m') => (.exn e2, m', writes)

/-- `Model.run_command` (model.py lines 528-583). `taskPresent` models
`self.connect_task is not None` (awaiting that task discards its result, so
it changes no connection field). The exchange: read one ready-prompt byte
(any failure or non-`>` byte disconnects, then raises); write
`cmd + "\n"`; for a `?` command read one CRLF-terminated line (failure
disconnects, then raises); otherwise read a single ack byte — that read has
no handler, so its failure propagates without a disconnect. Returns the
outcome, the post-call connection fields, and the list of wire writes. -/
def Model.run_command (env : RunEnv) (cmd : String) (want taskPresent : Bool)
    (m : ModelConn) : PyResult String × ModelConn × List String :=
  if !Model.connected m && !(want && taskPresent) then
    (.exn (.runtimeError "Not connected and not trying to connect"), m, [])
  else
    match m.reader with
    | none => Model.disconnectThenRaise env.drainOk m .assertionError []
    | some _ =>
        match env.prompt with
        | .timeout => Model.disconnectThenRaise env.drainOk m .timeoutError []
        | .ioFail => Model.disconnectThenRaise env.drainOk m .ioError []
        | .bytes b =>
            if b ≠ ">" then
              Model.disconnectThenRaise env.drainOk m
                (.runtimeError ("Controller not ready: Received " ++ b)) []
            else
              match m.writer with
              | none => (.exn .assertionError, m, [])
              | some _ =>
                  let writes := [cmd ++ "\n"]
                  if !env.writeOk then (.exn .ioError, m, writes)
                  else if pyStartsWith "?" cmd then
                    match env.reply with
                    | .bytes line => (.ok line, m, writes)
                    | .timeout =>
                        Model.disconnectThenRaise env.drainOk m .timeoutError writes
                    | .ioFail =>
                        Model.disconnectThenRaise env.drainOk m .ioError writes
                  else
                    match env.reply with
                    | .bytes b2 => (.ok b2, m, writes)
                    | .timeout => (.exn .timeoutError, m, writes)
                    | .ioFail => (.exn .ioError, m, writes)

/-- `Model.move_fw` (model.py lines 421-441): reject positions outside 0..3
with `RuntimeError` before touching the wire, else run `!FWM<pos>` and
return the stripped reply. -/
def Model.move_fw (env : RunEnv) (pos : Int) (want taskPresent : Bool)
    (m : ModelConn) : PyResult String × ModelConn × List String :=
  if pos < 0 ∨ pos > 3 then
    (.exn (.runtimeError ("Out of range (0-3), got " ++ toString pos ++ ".")), m, [])
  else
    match Model.run_command env ("!FWM" ++ toString pos ++ "\r\n") want taskPresent m with
    | (.ok ret, m', ws) => (.ok (check_return ret), m', ws)
    | (.exn e, m', ws) => (.exn e, m', ws)

/-- `Model.move_gw` (model.py lines 443-463): same structure as `move_fw`
with command letters `!GRM`. -/
def Model.move_gw (env : RunEnv) (pos : Int) (want taskPresent : Bool)
    (m : ModelConn) : PyResult String × ModelConn × List String :=
  if pos < 0 ∨ pos > 3 then
    (.exn (.runtimeError ("Out of range (0-3), got " ++ toString pos ++ ".")), m, [])
  else
    match Model.run_command env ("!GRM" ++ toString pos ++ "\r\n") want taskPresent m with
    | (.ok ret, m', ws) => (.ok (check_return ret), m', ws)
    | (.exn e, m', ws) => (.exn e, m', ws)

/-! ## The orchestration loop (atspec_csc.py, `CSC.move_element`) -/

/-- One `(state, position)` pair as returned by a status query and consumed
by `move_element`; the positions it compares arithmetically are numeric. -/
structure StatusSample where
  state : ATStatus
  pos : Rat
  deriving DecidableEq, Repr

/-- The SAL events written by `move_element`, in emission order. -/
inductive MoveEvent where
  | stateEvt (s : ATStatus)
  | reportPos (p : Rat)
  | inPosition (b : Bool)
  deriving DecidableEq, Repr

/-- The completion test of the polling loop in `CSC.move_element`
(atspec_csc.py lines 596-599): state is `STATIONARY` and the signed
difference `state[1] - position` is at most `tolerance`. The source takes
the difference without an absolute value and applies the same test to all
three axes. -/
def moveDone (st : ATStatus) (measured target tol : Rat) : Bool :=
  st = ATStatus.STATIONARY && decide (measured - target ≤ tol)

/-- The polling loop of `CSC.move_element` (atspec_csc.py lines 589-613).
Each element of `polls` is the sample of one loop iteration (one status
query every 0.5 s); the end of the list is the instant the elapsed time
exceeds `move_timeout`, whereupon the loop raises `TimeoutError`. On each
iteration the loop emits the state, and on the completion test it reports
the measured position and `inPosition=true`. -/
def move_element_poll (tol target : Rat) : List StatusSample → List MoveEvent × PyResult Rat
  | [] => ([], .exn .timeoutError)
  | s :: rest =>
      if moveDone s.state s.pos target tol then
        ([.stateEvt s.state, .reportPos s.pos, .inPosition true], .ok s.pos)
      else
        let tail := move_element_poll tol target rest
        (.stateEvt s.state :: tail.1, tail.2)

/-- The command phase of `CSC.move_element` (atspec_csc.py lines 553-587):
query once, emit the state; if `STATIONARY`, emit the state again and issue
the move — when the move call raises, emit `NOTINPOSITION` and re-raise;
when it returns, report the queried position (only with no position name,
i.e. for the linear stage) and emit `inPosition=false`. With any other
initial state raise `RuntimeError` after the single state event. -/
def move_element_start (initial : StatusSample) (moveResult : PyResult String)
    (positionName : Option String) : List MoveEvent × PyResult Unit :=
  if initial.state = ATStatus.STATIONARY then
    match moveResult with
    | .ok _ =>
        ([.stateEvt initial.state, .stateEvt initial.state] ++
          (if positionName.isNone then [.reportPos initial.pos] else []) ++
          [.inPosition false], .ok ())
    | .exn e =>
        ([.stateEvt initial.state, .stateEvt initial.state,
          .stateEvt ATStatus.NOTINPOSITION], .exn e)
  else
    ([.stateEvt initial.state], .exn (.runtimeError "Cannot change position."))

/-- `CSC.move_element` (atspec_csc.py lines 496-613) as the command phase
followed, on success, by the polling loop. -/
def move_element (initial : StatusSample) (moveResult : PyResult String)
    (positionName : Option String) (tol target : Rat) (polls : List StatusSample) :
    List MoveEvent × PyResult Rat :=
  match move_element_start initial moveResult positionName with
  | (evts, .ok _) =>
      let tail := move_element_poll tol target polls
      (evts ++ tail.1, tail.2)
  | (evts, .exn e) => (evts, .exn e)

/-! ## The simulated device (mock_controller.py) -/

/-- The per-axis fields of `MockSpectrographController`: state and error
codes are indices into `states = ["I","M","S","X"]` and
`error = ["N","B","I","T"]`; wheel positions are integers, the linear-stage
position a rational. -/
structure MockState where
  fw_state : Nat
  fw_pos : Int
  fw_err : Nat
  gw_state : Nat
  gw_pos : Int
  gw_err : Nat
  ls_state : Nat
  ls_pos : Rat
  ls_err : Nat
  deriving DecidableEq, Repr

/-- The constructor values of `MockSpectrographController.__init__`
(mock_controller.py lines 54-68): all axes stationary (code 2) at
position 0 with error `N` (code 0). -/
def initialMock : MockState :=
  { fw_state := 2, fw_pos := 0, fw_err := 0
    gw_state := 2, gw_pos := 0, gw_err := 0
    ls_state := 2, ls_pos := 0, ls_err := 0 }

/-- `self.states` (mock_controller.py line 51). -/
def mockStates : List String := ["I", "M", "S", "X"]

/-- `self.error` (mock_controller.py line 52). -/
def mockErrors : List String := ["N", "B", "I", "T"]

/-- The reply of `MockSpectrographController.fws` (mock_controller.py lines
179-188): a space-separated line of state letter, position, error letter
with CRLF. -/
def MockState.fwsReply (s : MockState) : String :=
  " " ++ mockStates.getD s.fw_state "" ++ " " ++ toString s.fw_pos ++ " " ++
    mockErrors.getD s.fw_err "" ++ "\r\n"

/-- The reply of `MockSpectrographController.grs` (mock_controller.py lines
190-199). -/
def MockState.grsReply (s : MockState) : String :=
  " " ++ mockStates.getD s.gw_state "" ++ " " ++ toString s.gw_pos ++ " " ++
    mockErrors.getD s.gw_err "" ++ "\r\n"

/-- `MockSpectrographController._execute_fw_move` (mock_controller.py lines
285-301) as the list of device-state snapshots at its suspension points: if
the wheel is already at `new_position` the task returns at once with no
state change (empty trace); otherwise it holds `state=1` (Moving) with
`position=3` for the travel duration, then `state=2` (Stationary) at the
target. -/
def execute_fw_move (s : MockState) (newPosition : Int) : List MockState :=
  if s.fw_pos ≠ newPosition then
    [{ s with fw_state := 1, fw_pos := 3 },
     { s with fw_state := 2, fw_pos := newPosition }]
  else []

/-- `MockSpectrographController._execute_gw_move` (mock_controller.py lines
321-337): identical to the filter-wheel task on the grating-wheel fields,
including the literal in-flight position 3. -/
def execute_gw_move (s : MockState) (newPosition : Int) : List MockState :=
  if s.gw_pos ≠ newPosition then
    [{ s with gw_state := 1, gw_pos := 3 },
     { s with gw_state := 2, gw_pos := newPosition }]
  else []

/-- `numpy.arange(start, stop, step)` over exact rationals: the values
`start + i * step` for `0 ≤ i < ceil((stop - start) / step)`. -/
def npArange (start stop step : Rat) : List Rat :=
  (List.range (⌈(stop - start) / step⌉).toNat).map
    (fun i => start + (i : Rat) * step)

/-- `MockSpectrographController._execute_ls_move` (mock_controller.py lines
358-377) as the list of device-state snapshots at its suspension points: a
no-op when already at the target; otherwise `state=1` (Moving) while the
position steps through `arange(current, target, ±ls_step)` (`ls_step = 1`),
then the exact target with `state=2` (Stationary). -/
def execute_ls_move (s : MockState) (newPosition : Rat) : List MockState :=
  if s.ls_pos ≠ newPosition then
    let step : Rat := if newPosition > s.ls_pos then 1 else -1
    (npArange s.ls_pos newPosition step).map
      (fun p => { s with ls_state := 1, ls_pos := p }) ++
      [{ s with ls_state := 2, ls_pos := newPosition }]
  else []

/-- The command table `MockSpectrographController._cmds` (mock_controller.py
lines 74-94). `some none` is a key registered with handler `None`;
`some (some h)` names the bound method. -/
inductive MockHandler where
  | fws | grs | lss | fwi | gwi | lsi | fwm | grm | lsm
  deriving DecidableEq, Repr

/-- Lookup in `_cmds` by the four-character command key. -/
def mockCmds (key : String) : Option (Option MockHandler) :=
  if key = "!XXX" then some none
  else if key = "!LDC" then some none
  else if key = "?FWS" then some (some .fws)
  else if key = "?GRS" then some (some .grs)
  else if key = "?LSS" then some (some .lss)
  else if key = "?LSL" then some none
  else if key = "?GRP" then some none
  else if key = "?FWP" then some none
  else if key = "!FWI" then some (some .fwi)
  else if key = "!GRI" then some (some .gwi)
  else if key = "!LSI" then some (some .lsi)
  else if key = "!FWM" then some (some .fwm)
  else if key = "!GRM" then some (some .grm)
  else if key = "!LSM" then some (some .lsm)
  else none

/-- A motion task spawned with `asyncio.create_task` by a move handler. -/
inductive MockSpawned where
  | fwMove (n : Int)
  | gwMove (n : Int)
  | lsMove (q : Rat)
  deriving DecidableEq, Repr

/-- Python `line[:4]`. -/
def pyTake4 (s : String) : String := ⟨s.data.take 4⟩

/-- Python `line[4:]`. -/
def pyDrop4 (s : String) : String := ⟨s.data.drop 4⟩

/-- The reply of `MockSpectrographController.lss` (mock_controller.py lines
201-210); `toString` of a `Rat` stands in for Python float formatting. -/
def MockState.lssReply (s : MockState) : String :=
  " " ++ mockStates.getD s.ls_state "" ++ " " ++ toString s.ls_pos ++ " " ++
    mockErrors.getD s.ls_err "" ++ "\r\n"

/-- One handler call of the mock: the reply bytes, the state after the
handler returns, and any motion task it spawned. Status handlers read the
axis fields; home handlers (`fwi`, `gwi`, `lsi`, mock_controller.py lines
212-264) run synchronously and leave the axis homed; move handlers
(`fwm`, `grm`, `lsm`, lines 266-356) parse their argument, bounds-check it
against `fw_limit`/`gw_limit` `(0,3)` or `ls_limit` `(0,1000)`, spawn the
motion task and ack with a single space, replying `"Invalid Argument"` out
of range and `"?Unknown"` when the argument does not parse. -/
def runMockHandler (h : MockHandler) (s : MockState) (arg : String) :
    String × MockState × List MockSpawned :=
  match h with
  | .fws => (s.fwsReply, s, [])
  | .grs => (s.grsReply, s, [])
  | .lss => (s.lssReply, s, [])
  | .fwi => (" ", { s with fw_state := 2, fw_pos := 0, fw_err := 0 }, [])
  | .gwi => (" ", { s with gw_state := 2, gw_pos := 0, gw_err := 0 }, [])
  | .lsi => (" ", { s with ls_state := 2, ls_pos := 0, ls_err := 0 }, [])
  | .fwm =>
      match pyInt arg with
      | none => ("?Unknown", s, [])
      | some n =>
          if 0 ≤ n ∧ n ≤ 3 then (" ", s, [.fwMove n])
          else ("Invalid Argument", s, [])
  | .grm =>
      match pyInt arg with
      | none => ("?Unknown", s, [])
      | some n =>
          if 0 ≤ n ∧ n ≤ 3 then (" ", s, [.gwMove n])
          else ("Invalid Argument", s, [])
  | .lsm =>
      match pyFloat arg with
      | none => ("?Unknown", s, [])
      | some q =>
          if 0 ≤ q ∧ q ≤ 1000 then (" ", s, [.lsMove q])
          else ("Invalid Argument", s, [])

/-- One iteration of `MockSpectrographController.cmd_loop`
(mock_controller.py lines 151-177) on one received line: an empty read
closes the connection; otherwise the stripped line is dispatched on its
first four characters. A key bound to `None` fails the `assert
callable(cmd)` and, like an unknown key or a raising handler, is answered
with the fixed `" ?Unknown\r\n"` string; every answered command is followed
by the `">"` ready-prompt and the loop continues. Returns the state after
the iteration, the writes, the spawned tasks, and whether the loop keeps
running. -/
def mock_cmd_iteration (s : MockState) (rawLine : String) :
    MockState × List String × List MockSpawned × Bool :=
  if rawLine = "" then (s, [], [], false)
  else if pyStrip rawLine = "" then (s, [], [], true)
  else
    match mockCmds (pyTake4 (pyStrip rawLine)) with
    | none => (s, [" ?Unknown\r\n", ">"], [], true)
    | some none => (s, [" ?Unknown\r\n", ">"], [], true)
    | some (some h) =>
        let r := runMockHandler h s (pyDrop4 (pyStrip rawLine))
        (r.2.1, [r.1, ">"], r.2.2, true)

/-! ## Claim theorems -/

/-- C1: the claim says `move_element` declares a move complete only when a
poll is Stationary and the completion criterion holds for the commanded
target (exact slot match for wheels, `|measured - target| ≤ tolerance` for
the stage). The code instead tests the signed difference
`state[1] - position ≤ tolerance`: at the failing input below, a poll that
is Stationary at position 0 with commanded target 3 and tolerance 1/100 is
declared complete — final position 0 reported with `inPosition = true` —
although 0 is not the commanded slot and `|0 - 3|` exceeds the tolerance. -/
theorem C1_move_element_signed_tolerance_failing_input :
    move_element ⟨.STATIONARY, 0⟩ (.ok " ") none (1/100) 3 [⟨.STATIONARY, 0⟩] =
      ([.stateEvt .STATIONARY, .stateEvt .STATIONARY, .reportPos 0, .inPosition false,
        .stateEvt .STATIONARY, .reportPos 0, .inPosition true], .ok 0) ∧
    (0:Rat) ≠ 3 ∧ ¬(|(0:Rat) - 3| ≤ 1/100) := by
  refine ⟨?_, by norm_num, by norm_num⟩
  simp [move_element, move_element_start, move_element_poll, moveDone]
  norm_num

/-- C2: the claim says `disconnect` on a disconnected or never-connected
`Model` is a no-op that never raises. In the code the first statement of
`disconnect` reads the asserting `writer` property, so with `_writer = None`
it raises `AssertionError` before the `if writer:` guard can run, for every
value of the remaining reader field and of the drain outcome. -/
theorem C2_disconnect_when_not_connected_raises (drainOk : Bool) (r : Option Nat) :
    Model.disconnect drainOk ⟨r, none⟩ = (.exn .assertionError, ⟨r, none⟩) := rfl

/-- C3 counterexample: a non-space ack reply is not surfaced as a failure.
With the device answering the ack byte `"I"` (the first byte of
`"Invalid Argument"`), `move_fw` returns it as an ordinary successful
result — `check_return` strips nothing and raises nothing — although
`"I"` is not the single-space success ack. -/
theorem C3_failure_string_treated_as_success :
    Model.move_fw ⟨.bytes ">", true, .bytes "I", true⟩ 2 false false ⟨some 0, some 0⟩ =
      (.ok "I", ⟨some 0, some 0⟩, ["!FWM2\r\n\n"]) ∧ ("I" : String) ≠ " " := by
  decide

/-- C3 (amended): `move_element` emits a not-in-position transition and
fails only when the move call itself raises (as the out-of-range check
does); the content of the device's ack reply is never inspected — for any
reply bytes `r`, an in-range `move_fw` returns `check_return r` as a
successful result, so a device-reported failure string is treated as
success rather than raised. -/
theorem C3_amended_rejection_only_from_raised_errors
    (initial : StatusSample) (e : PyErr) (posName : Option String)
    (hst : initial.state = ATStatus.STATIONARY)
    (env : RunEnv) (pos : Int) (want task : Bool) (a b : Nat) (r : String)
    (hpos : ¬(pos < 0 ∨ pos > 3))
    (hprompt : env.prompt = .bytes ">") (hw : env.writeOk = true)
    (hreply : env.reply = .bytes r) :
    move_element_start initial (.exn e) posName =
      ([.stateEvt initial.state, .stateEvt initial.state,
        .stateEvt ATStatus.NOTINPOSITION], .exn e) ∧
    Model.move_fw env pos want task ⟨some a, some b⟩ =
      (.ok (check_return r), ⟨some a, some b⟩,
        ["!FWM" ++ toString pos ++ "\r\n" ++ "\n"]) := by
  constructor
  · simp [move_element_start, hst]
  · have hq : pyStartsWith "?" ("!FWM" ++ toString pos ++ "\r\n") = false := by
      simp [pyStartsWith, String.data_append, List.isPrefixOf]
    unfold Model.move_fw
    rw [if_neg hpos]
    obtain ⟨pr, w, rp, dr⟩ := env
    simp_all [Model.run_command, Model.connected]

/-- C3 witness: the amended theorem at a concrete raising move and at a
concrete device ack `"I"`. -/
theorem C3_amended_witness :
    move_element_start ⟨.STATIONARY, 0⟩ (.exn .timeoutError) none =
      ([.stateEvt .STATIONARY, .stateEvt .STATIONARY,
        .stateEvt ATStatus.NOTINPOSITION], .exn .timeoutError) ∧
    Model.move_fw ⟨.bytes ">", true, .bytes "I", true⟩ 2 false false ⟨some 0, some 0⟩ =
      (.ok (check_return "I"), ⟨some 0, some 0⟩,
        ["!FWM" ++ toString (2:Int) ++ "\r\n" ++ "\n"]) :=
  C3_amended_rejection_only_from_raised_errors ⟨.STATIONARY, 0⟩ .timeoutError none rfl
    ⟨.bytes ">", true, .bytes "I", true⟩ 2 false false 0 0 "I" (by decide) rfl rfl rfl

/-- C4 counterexample: when the welcome banner lacks the expected
`"Spectrograph"` identifier, `connect` raises with the reader and writer
already assigned: the link is reported connected after the failure, and
nothing was closed — refuting "in every such failure case the link is left
Disconnected". -/
theorem C4_bad_banner_leaves_link_connected :
    Model.connect ⟨true, .bytes "\r\n", .bytes "garbage\r\n"⟩ ⟨none, none⟩ =
      (.exn (.runtimeError "No welcome message from controller."), ⟨some 0, some 0⟩) ∧
    Model.connected ⟨some 0, some 0⟩ = true := by
  decide

/-- C4 (amended): `connect` fails if already connected, on a handshake
timeout, or when the banner is missing or lacks the device identifier; in
the first two cases the reader/writer fields are never assigned (the link
stays as it was), but in the banner cases the error propagates with the
fields already set, so the link is left reported connected and the socket
is not closed. -/
theorem C4_amended_connect_failure_cases (env : ConnectEnv) (m : ModelConn) :
    (Model.connected m = true →
      Model.connect env m = (.exn (.runtimeError "Already connected"), m)) ∧
    (Model.connected m = false → env.tcpOk = false →
      Model.connect env m = (.exn .timeoutError, m) ∧ Model.connected m = false) ∧
    (∀ b1 l2, Model.connected m = false → env.tcpOk = true →
      env.banner1 = .bytes b1 → env.banner2 = .bytes l2 →
      listIsInfix "Spectrograph".data (pyRstrip l2).data = false →
      Model.connect env m =
        (.exn (.runtimeError "No welcome message from controller."), ⟨some 0, some 0⟩) ∧
      Model.connected ⟨some 0, some 0⟩ = true) ∧
    (∀ b1, Model.connected m = false → env.tcpOk = true →
      env.banner1 = .bytes b1 → env.banner2 = .timeout →
      Model.connect env m = (.exn .timeoutError, ⟨some 0, some 0⟩) ∧
      Model.connected ⟨some 0, some 0⟩ = true) := by
  refine ⟨fun hc => ?_, fun hc ht => ?_, fun b1 l2 hc ht h1 h2 hbad => ?_,
    fun b1 hc ht h1 h2 => ?_⟩
  · unfold Model.connect
    rw [if_pos hc]
  · unfold Model.connect
    rw [if_neg (by simp [hc]), ht]
    exact ⟨rfl, hc⟩
  · unfold Model.connect
    rw [if_neg (by simp [hc]), ht, h1, h2]
    simp [hbad, Model.connected]
  · unfold Model.connect
    rw [if_neg (by simp [hc]), ht, h1, h2]
    simp [Model.connected]

/-- C4 witness: the amended theorem at the bad-banner instance. -/
theorem C4_amended_witness :
    Model.connect ⟨true, .bytes "\r\n", .bytes "garbage\r\n"⟩ ⟨none, none⟩ =
      (.exn (.runtimeError "No welcome message from controller."), ⟨some 0, some 0⟩) ∧
    Model.connected ⟨some 0, some 0⟩ = true :=
  (C4_amended_connect_failure_cases ⟨true, .bytes "\r\n", .bytes "garbage\r\n"⟩
      ⟨none, none⟩).2.2.1 "\r\n" "garbage\r\n" rfl rfl rfl rfl (by decide)

/-- C5 counterexample: for a non-query command, a timeout while reading the
single ack byte propagates with no implicit disconnect: after the failed
`run_command` the link is still reported connected — refuting "after a
failed run_command the link is never still reported connected". -/
theorem C5_ack_read_timeout_keeps_link_connected :
    Model.run_command ⟨.bytes ">", true, .timeout, true⟩ "!FWM2\r\n" false false
        ⟨some 0, some 0⟩ =
      (.exn .timeoutError, ⟨some 0, some 0⟩, ["!FWM2\r\n\n"]) ∧
    Model.connected ⟨some 0, some 0⟩ = true := by
  decide

/-- C5 (amended): on a connected link, a failure of the ready-prompt read
or of the query-reply read triggers an implicit disconnect before the error
propagates; but a failure while writing the command line or while reading
the single ack byte of a non-query command propagates with the link still
reported connected. -/
theorem C5_amended_disconnect_coverage (env : RunEnv) (cmd : String)
    (want task : Bool) (a b : Nat) :
    (env.prompt = .timeout →
      Model.run_command env cmd want task ⟨some a, some b⟩ =
        (.exn .timeoutError, ⟨none, none⟩, []) ∧
      Model.connected ⟨none, none⟩ = false) ∧
    (∀ p, env.prompt = .bytes p → p ≠ ">" →
      (Model.run_command env cmd want task ⟨some a, some b⟩).1.isExn = true ∧
      (Model.run_command env cmd want task ⟨some a, some b⟩).2.1 = ⟨none, none⟩) ∧
    (env.prompt = .bytes ">" → env.writeOk = true → pyStartsWith "?" cmd = true →
      env.reply = .timeout →
      (Model.run_command env cmd want task ⟨some a, some b⟩).1.isExn = true ∧
      (Model.run_command env cmd want task ⟨some a, some b⟩).2.1 = ⟨none, none⟩) ∧
    (env.prompt = .bytes ">" → env.writeOk = true → pyStartsWith "?" cmd = false →
      env.reply = .timeout →
      Model.run_command env cmd want task ⟨some a, some b⟩ =
        (.exn .timeoutError, ⟨some a, some b⟩, [cmd ++ "\n"]) ∧
      Model.connected ⟨some a, some b⟩ = true) ∧
    (env.prompt = .bytes ">" → env.writeOk = false →
      Model.run_command env cmd want task ⟨some a, some b⟩ =
        (.exn .ioError, ⟨some a, some b⟩, [cmd ++ "\n"]) ∧
      Model.connected ⟨some a, some b⟩ = true) := by
  obtain ⟨pr, w, rp, dr⟩ := env
  cases pr <;> cases w <;> cases rp <;> cases dr <;>
    refine ⟨fun hp => ?_, fun p hp hne => ?_, fun hp hw hq hr => ?_,
      fun hp hw hq hr => ?_, fun hp hw => ?_⟩ <;>
    simp_all [Model.run_command, Model.disconnectThenRaise, Model.disconnect,
      Model.writer_prop, Model.connected, PyResult.isExn]

/-- C5 witness: the amended theorem at a prompt-read timeout (disconnects)
and at an ack-read timeout of a non-query command (stays connected). -/
theorem C5_amended_witness :
    (Model.run_command ⟨.timeout, true, .timeout, true⟩ "?FWS\r\n" false false
        ⟨some 0, some 0⟩ =
      (.exn .timeoutError, ⟨none, none⟩, []) ∧
      Model.connected ⟨none, none⟩ = false) ∧
    (Model.run_command ⟨.bytes ">", true, .timeout, true⟩ "!FWM2\r\n" false false
        ⟨some 0, some 0⟩ =
      (.exn .timeoutError, ⟨some 0, some 0⟩, ["!FWM2\r\n" ++ "\n"]) ∧
      Model.connected ⟨some 0, some 0⟩ = true) :=
  ⟨(C5_amended_disconnect_coverage ⟨.timeout, true, .timeout, true⟩ "?FWS\r\n"
      false false 0 0).1 rfl,
   (C5_amended_disconnect_coverage ⟨.bytes ">", true, .timeout, true⟩ "!FWM2\r\n"
      false false 0 0).2.2.2.1 rfl rfl (by decide) rfl⟩

/-- C6 counterexample: during a simulated filter-wheel move the reported
position is the literal 3, a valid slot index (0..3): the status line is
`" M 3 N"`, whose position field decodes to the integer 3, not to the
in-between sentinel — refuting "a position that decodes to the in-between
sentinel rather than to a valid slot index". -/
theorem C6_inflight_wheel_position_is_valid_slot :
    execute_fw_move initialMock 1 =
      [{ initialMock with fw_state := 1, fw_pos := 3 },
       { initialMock with fw_state := 2, fw_pos := 1 }] ∧
    ({ initialMock with fw_state := 1, fw_pos := 3 } : MockState).fwsReply =
      " M 3 N\r\n" ∧
    FilterWheelStatus_parse (check_return " M 3 N\r\n") =
      some (.MOVING, .intVal 3, .NONE) ∧
    ParsedPos.intVal 3 ≠ ParsedPos.INBETWEEN ∧ (0 ≤ (3:Int) ∧ (3:Int) ≤ 3) := by
  decide

/-- C6 (amended): while a simulated wheel move to a different slot is in
flight, the wheel's state is Moving (code 1) and its reported position is
the fixed value 3 — a valid slot index, not an in-between sentinel; after
the travel duration the state is Stationary (code 2) and the position
equals the commanded target. -/
theorem C6_amended_wheel_move_trace (s : MockState) (n : Int)
    (hfw : s.fw_pos ≠ n) (hgw : s.gw_pos ≠ n) :
    execute_fw_move s n =
      [{ s with fw_state := 1, fw_pos := 3 }, { s with fw_state := 2, fw_pos := n }] ∧
    execute_gw_move s n =
      [{ s with gw_state := 1, gw_pos := 3 }, { s with gw_state := 2, gw_pos := n }] := by
  unfold execute_fw_move execute_gw_move
  rw [if_pos hfw, if_pos hgw]
  exact ⟨rfl, rfl⟩

/-- C6 witness: the amended theorem at a wheel move from slot 0 to
slot 1. -/
theorem C6_amended_witness :
    execute_fw_move initialMock 1 =
      [{ initialMock with fw_state := 1, fw_pos := 3 },
       { initialMock with fw_state := 2, fw_pos := 1 }] ∧
    execute_gw_move initialMock 1 =
      [{ initialMock with gw_state := 1, gw_pos := 3 },
       { initialMock with gw_state := 2, gw_pos := 1 }] :=
  C6_amended_wheel_move_trace initialMock 1 (by decide) (by decide)

/-- C7: on the simulated device, for every axis, a move command whose
target equals the current position changes nothing — the motion task
returns at once with an empty trace — while a move to a different position
starts in state Moving (code 1) and ends Stationary (code 2) exactly at the
target, with every intermediate linear-stage snapshot still Moving. -/
theorem C7_noop_move_idempotence (s : MockState) (nw ng : Int) (nl : Rat) :
    (s.fw_pos = nw → execute_fw_move s nw = []) ∧
    (s.gw_pos = ng → execute_gw_move s ng = []) ∧
    (s.ls_pos = nl → execute_ls_move s nl = []) ∧
    (s.fw_pos ≠ nw →
      (execute_fw_move s nw).head?.map MockState.fw_state = some 1 ∧
      (execute_fw_move s nw).getLast? = some { s with fw_state := 2, fw_pos := nw }) ∧
    (s.gw_pos ≠ ng →
      (execute_gw_move s ng).head?.map MockState.gw_state = some 1 ∧
      (execute_gw_move s ng).getLast? = some { s with gw_state := 2, gw_pos := ng }) ∧
    (s.ls_pos ≠ nl →
      execute_ls_move s nl ≠ [] ∧
      (execute_ls_move s nl).head?.map MockState.ls_state = some 1 ∧
      (execute_ls_move s nl).getLast? = some { s with ls_state := 2, ls_pos := nl } ∧
      ∀ x ∈ (execute_ls_move s nl).dropLast, x.ls_state = 1) := by
  refine ⟨fun h => by simp [execute_fw_move, h], fun h => by simp [execute_gw_move, h],
    fun h => by simp [execute_ls_move, h], fun h => ?_, fun h => ?_, fun h => ?_⟩
  · unfold execute_fw_move
    rw [if_pos h]
    exact ⟨rfl, rfl⟩
  · unfold execute_gw_move
    rw [if_pos h]
    exact ⟨rfl, rfl⟩
  · unfold execute_ls_move
    rw [if_pos h]
    simp only [npArange]
    have hpos : 0 < (nl - s.ls_pos) / (if nl > s.ls_pos then (1:Rat) else -1) := by
      rcases h.lt_or_lt with hlt | hlt
      · rw [if_pos hlt, div_one]
        linarith
      · rw [if_neg (not_lt.mpr hlt.le)]
        have hdiv : (nl - s.ls_pos) / (-1 : Rat) = s.ls_pos - nl := by ring
        rw [hdiv]
        linarith
    have hc := Int.ceil_pos.mpr hpos
    obtain ⟨m, hm⟩ :
        ∃ m, (⌈(nl - s.ls_pos) / (if nl > s.ls_pos then (1:Rat) else -1)⌉).toNat = m + 1 :=
      ⟨(⌈(nl - s.ls_pos) / (if nl > s.ls_pos then (1:Rat) else -1)⌉).toNat - 1, by omega⟩
    rw [hm, List.range_succ_eq_map]
    refine ⟨by simp, by simp, List.getLast?_concat _, ?_⟩
    rw [List.dropLast_concat]
    intro x hx
    rcases List.mem_map.mp hx with ⟨i, _, rfl⟩
    rfl

/-- C7 witness: no-op moves at the current positions beside real moves to
position 2 on the fresh mock device. -/
theorem C7_noop_move_idempotence_witness :
    execute_fw_move initialMock 0 = [] ∧
    execute_gw_move initialMock 0 = [] ∧
    execute_ls_move initialMock 0 = [] ∧
    (execute_fw_move initialMock 2).head?.map MockState.fw_state = some 1 ∧
    (execute_ls_move initialMock 2).getLast? =
      some { initialMock with ls_state := 2, ls_pos := 2 } := by
  have he := C7_noop_move_idempotence initialMock 0 0 0
  have hn := C7_noop_move_idempotence initialMock 2 2 2
  exact ⟨he.1 rfl, he.2.1 rfl, he.2.2.1 rfl, (hn.2.2.2.1 (by decide)).1,
    ((hn.2.2.2.2.2 (show (0:Rat) ≠ 2 by norm_num)).2.2.1)⟩

/-- C8: on any status reply splitting into the protocol's four fields, the
position field is parsed speculatively — integer first, then float, else
the in-between sentinel, never failing — while an unknown state or error
letter makes the whole decode a protocol error (`none`); and the grating
wheel and grating stage decoders are the very same function as the filter
wheel decoder. -/
theorem C8_parse_status_speculative_position (s stL pL erL : String)
    (hsplit : pySplitSpace s = ["", stL, pL, erL]) :
    FilterWheelStatus_parse s =
      (match statusMap stL, errorMap erL with
       | some st, some er => some (st, parsePosField pL, er)
       | _, _ => none) ∧
    (pyInt pL = none → pyFloat pL = none → parsePosField pL = ParsedPos.INBETWEEN) ∧
    GratingWheelStatus_parse = FilterWheelStatus_parse ∧
    GratingStageStatus_parse = FilterWheelStatus_parse := by
  refine ⟨?_, fun h1 h2 => by simp [parsePosField, h1, h2], rfl, rfl⟩
  unfold FilterWheelStatus_parse
  rw [hsplit]
  dsimp only [List.get?]
  cases statusMap stL <;> cases errorMap erL <;> rfl

/-- C8 witness: the theorem at the non-numeric reply `" S wide N"`, whose
position decodes to the in-between sentinel. -/
theorem C8_parse_status_witness :
    FilterWheelStatus_parse " S wide N" =
      (match statusMap "S", errorMap "N" with
       | some st, some er => some (st, parsePosField "wide", er)
       | _, _ => none) ∧
    parsePosField "wide" = ParsedPos.INBETWEEN ∧
    GratingWheelStatus_parse = FilterWheelStatus_parse ∧
    GratingStageStatus_parse = FilterWheelStatus_parse := by
  have h := C8_parse_status_speculative_position " S wide N" "S" "wide" "N" (by decide)
  exact ⟨h.1, h.2.1 (by decide) (by decide), h.2.2.1, h.2.2.2⟩

/-- C9: a wheel move request outside 0..3 fails with the out-of-range
`RuntimeError` before any I/O: nothing is written to the wire and the
connection state is unchanged, for both wheels. -/
theorem C9_wheel_move_out_of_range_fails_fast (env : RunEnv) (pos : Int)
    (want taskPresent : Bool) (m : ModelConn) (h : pos < 0 ∨ pos > 3) :
    Model.move_fw env pos want taskPresent m =
      (.exn (.runtimeError ("Out of range (0-3), got " ++ toString pos ++ ".")), m, []) ∧
    Model.move_gw env pos want taskPresent m =
      (.exn (.runtimeError ("Out of range (0-3), got " ++ toString pos ++ ".")), m, []) := by
  unfold Model.move_fw Model.move_gw
  rw [if_pos h, if_pos h]
  exact ⟨rfl, rfl⟩

/-- C9 witness: the theorem at the out-of-range request 9 of §8 of the
specification. -/
theorem C9_out_of_range_witness :
    Model.move_fw ⟨.bytes ">", true, .bytes " ", true⟩ 9 false false ⟨some 0, some 0⟩ =
      (.exn (.runtimeError ("Out of range (0-3), got " ++ toString (9:Int) ++ ".")),
        ⟨some 0, some 0⟩, []) ∧
    Model.move_gw ⟨.bytes ">", true, .bytes " ", true⟩ 9 false false ⟨some 0, some 0⟩ =
      (.exn (.runtimeError ("Out of range (0-3), got " ++ toString (9:Int) ++ ".")),
        ⟨some 0, some 0⟩, []) :=
  C9_wheel_move_out_of_range_fails_fast ⟨.bytes ">", true, .bytes " ", true⟩ 9 false false
    ⟨some 0, some 0⟩ (Or.inr (by decide))

/-- C10: every line whose stripped form is one of the five command keys
registered with handler `None` (`!XXX`, `!LDC`, `?LSL`, `?GRP`, `?FWP`) is
answered with the fixed `" ?Unknown\r\n"` error string followed by the
ready-prompt — never the single-space ack — with the device state
untouched, no task spawned, and the command loop still running. -/
theorem C10_unregistered_commands_unknown_reply (s : MockState) (line : String)
    (h : pyStrip line ∈ (["!XXX", "!LDC", "?LSL", "?GRP", "?FWP"] : List String)) :
    mock_cmd_iteration s line = (s, [" ?Unknown\r\n", ">"], [], true) ∧
    (" ?Unknown\r\n" : String) ≠ " " := by
  have hne : line ≠ "" := by
    intro he
    subst he
    revert h
    decide
  refine ⟨?_, by decide⟩
  simp only [List.mem_cons, List.not_mem_nil, or_false] at h
  unfold mock_cmd_iteration
  rw [if_neg hne]
  rcases h with h1 | h1 | h1 | h1 | h1 <;> rw [h1] <;> rfl

/-- C10 witness: the theorem at the stop-all-motion line `"!XXX\r\n"` on
the fresh mock device. -/
theorem C10_unknown_reply_witness :
    mock_cmd_iteration initialMock "!XXX\r\n" =
      (initialMock, [" ?Unknown\r\n", ">"], [], true) ∧
    (" ?Unknown\r\n" : String) ≠ " " :=
  C10_unregistered_commands_unknown_reply initialMock "!XXX\r\n" (by decide)

end ATSpec
